import Mathlib

/-!
Verification of the persistent terminal-session subsystem of claudecodeui
(`ShellSessionManager` in `server/utils/claude-config.js`).

The manager is single-threaded JavaScript: every method runs to completion
before the next event is handled.  We embed it as pure state-transition
functions on an explicit `SystemState`.  Timestamps (`Date` / `Date.now()`)
become `Int` milliseconds supplied by the caller of each transition.
External effects (spawning a PTY, writing to it, killing it, closing a
WebSocket, delivering a message over a WebSocket, arming a timer) are
recorded as an ordered `List Effect` emitted by each transition, in the
order the corresponding calls occur in the JavaScript body.

`sendToWebSocket(ws, data)` is treated as the delivery primitive: the model
records the call as a single `Effect.sendWs` when the socket is open
(the `readyState !== OPEN` guard) and drops it otherwise.  Its internal URL
interception (side-channel `url_open` signals and the OPEN_URL rewrite) is
below the abstraction boundary of every claim considered here, which only
concern which deliveries happen and in what order.
-/

/-- One entry of a session's `outputBuffer`: `{ data, timestamp: Date.now() }`. -/
structure OutputEntry where
  data : String
  timestamp : Int
deriving DecidableEq, Repr

/-- The per-session record stored in `this.sessions` (see the `SessionData`
typedef and the object literal built in `getOrCreateSession`).  The PTY
process is identified by its pid; WebSocket transports by a numeric id. -/
structure SessionData where
  ptyProcess : Nat
  outputBuffer : List OutputEntry
  projectPath : String
  sessionId : Option String
  reconnectedSessionId : Option String
  createdAt : Int
  lastActiveAt : Int
  isConnected : Bool
  currentWs : Option Nat
  cols : Nat
  rows : Nat
deriving DecidableEq, Repr

/-- External effects performed by the manager, recorded in call order. -/
inductive Effect where
  /-- `pty.spawn('bash', ['-c', command], ...)` creating process `pid`. -/
  | spawnPty (pid : Nat) (command : String)
  /-- `ptyProcess.write(data)`. -/
  | writePty (pid : Nat) (data : String)
  /-- `ptyProcess.resize(cols, rows)`. -/
  | resizePty (pid : Nat) (cols rows : Nat)
  /-- `ptyProcess.kill(signal)`; `none` is the no-argument default kill. -/
  | killPty (pid : Nat) (signal : Option String)
  /-- `ws.close()` on a transport. -/
  | closeWs (ws : Nat)
  /-- `sendToWebSocket(ws, data)` reaching its final `ws.send` of `data`. -/
  | sendWs (ws : Nat) (data : String)
  /-- `setTimeout(..., delayMs)` arming the graceful-kill escalation. -/
  | armKillTimer (sessionKey : String) (pid : Nat) (delayMs : Nat)
deriving DecidableEq, Repr

/-- The whole mutable world the manager touches.  `sessions` and the pending
timers are manager state; `nextPid` models the OS handing out fresh pids;
`openWs` models which transports currently have `readyState === OPEN`. -/
structure SystemState where
  sessions : List (String × SessionData)
  nextPid : Nat
  openWs : List Nat
  pendingKillTimers : List (String × Nat)
deriving DecidableEq, Repr

/-- Result of one manager method: return value, new state, emitted effects. -/
structure Step (α : Type) where
  res : α
  st : SystemState
  acts : List Effect
deriving Repr

/-- `Map.get` on the session registry (JS `Map` keys are unique). -/
def findSession : List (String × SessionData) → String → Option SessionData
  | [], _ => none
  | (k, v) :: rest, key => if k = key then some v else findSession rest key

/-- `Map.set`: replace the entry in place if the key is present (JS `Map`
keys are unique, so the first occurrence is the only one), else append at
the end (JS `Map` preserves insertion order). -/
def setSession : List (String × SessionData) → String → SessionData →
    List (String × SessionData)
  | [], key, v => [(key, v)]
  | (k, w) :: rest, key, v =>
      if k = key then (key, v) :: rest else (k, w) :: setSession rest key v

/-- `Map.delete`. -/
def eraseSession (m : List (String × SessionData)) (key : String) :
    List (String × SessionData) :=
  m.filter (fun kv => kv.1 ≠ key)

/-- `generateSessionKey(projectPath)`:
`` `project-${projectPath.replace(/[/\\]/g, '_')}` `` — every `/` and `\`
of the path becomes `_` (the regex replaces single characters). -/
def generateSessionKey (projectPath : String) : String :=
  "project-" ++ ⟨projectPath.data.map (fun c => if c = '/' ∨ c = '\\' then '_' else c)⟩

/-- The buffering policy of the `ptyProcess.onData` handler: push the entry,
then `if (outputBuffer.length > 1000) outputBuffer = outputBuffer.slice(-800)`
(keep the most recent 800 in one batch operation). -/
def appendToBuffer (buffer : List OutputEntry) (entry : OutputEntry) : List OutputEntry :=
  let pushed := buffer ++ [entry]
  if pushed.length > 1000 then pushed.drop (pushed.length - 800) else pushed

/-- `sendToWebSocket(ws, data)`: delivers iff `ws.readyState === ws.OPEN`
(see the module comment for the abstraction of the URL interceptor). -/
def sendToWebSocket (st : SystemState) (ws : Nat) (data : String) : List Effect :=
  if ws ∈ st.openWs then [Effect.sendWs ws data] else []

/-- The `bash -c` command string composed in `getOrCreateSession`:
`cd "<projectPath>" && <claude | claude --resume sid>`. -/
def startCommandFor (projectPath : String) (sessionId : Option String) : String :=
  let startCommand := match sessionId with
    | some sid => "claude --resume " ++ sid
    | none => "claude"
  "cd \"" ++ projectPath ++ "\" && " ++ startCommand

/-- `getOrCreateSession(projectPath, sessionId, cols, rows)`.  Reuse path:
update `lastActiveAt`, resize the existing PTY, return `isNew: false`.
Create path: spawn one PTY (fresh pid from `nextPid`), build the
`sessionData` record, register it, return `isNew: true`.  The `onData` /
`onExit` callbacks it installs are modelled as the separate transitions
`ptyOnData` / `ptyOnExit` below. -/
def getOrCreateSession (st : SystemState) (projectPath : String)
    (sessionId : Option String) (cols rows : Nat) (now : Int) :
    Step (SessionData × Bool) :=
  let sessionKey := generateSessionKey projectPath
  match findSession st.sessions sessionKey with
  | some session =>
      let session' := { session with lastActiveAt := now }
      { res := (session', false),
        st := { st with sessions := setSession st.sessions sessionKey session' },
        acts := [Effect.resizePty session.ptyProcess cols rows] }
  | none =>
      let pid := st.nextPid
      let sessionData : SessionData := {
        ptyProcess := pid,
        outputBuffer := [],
        projectPath := projectPath,
        sessionId := sessionId,
        reconnectedSessionId := sessionId,
        createdAt := now,
        lastActiveAt := now,
        isConnected := false,
        currentWs := none,
        cols := cols,
        rows := rows }
      { res := (sessionData, true),
        st := { st with
          sessions := setSession st.sessions sessionKey sessionData,
          nextPid := st.nextPid + 1 },
        acts := [Effect.spawnPty pid (startCommandFor projectPath sessionId)] }

/-- The `ptyProcess.onData` callback installed by `getOrCreateSession`:
buffer the chunk (with trim), then forward it iff
`sessionData.isConnected && sessionData.currentWs`.  The callback closes
over one particular session object, so it is keyed by `(sessionKey, pid)`
and only affects the registry while that session is the registered one. -/
def ptyOnData (st : SystemState) (sessionKey : String) (pid : Nat)
    (data : String) (now : Int) : Step Unit :=
  match findSession st.sessions sessionKey with
  | some session =>
      if session.ptyProcess = pid then
        let session' := { session with
          outputBuffer := appendToBuffer session.outputBuffer ⟨data, now⟩ }
        { res := (),
          st := { st with sessions := setSession st.sessions sessionKey session' },
          acts :=
            if session.isConnected then
              match session.currentWs with
              | some ws => sendToWebSocket st ws data
              | none => []
            else [] }
      else
        { res := (), st := st, acts := [] }
  | none => { res := (), st := st, acts := [] }

/-- The `ptyProcess.onExit` callback: log and `this.sessions.delete(sessionKey)`
— unconditional, and nothing is sent anywhere. -/
def ptyOnExit (st : SystemState) (sessionKey : String) (_exitCode : Int) : Step Unit :=
  { res := (), st := { st with sessions := eraseSession st.sessions sessionKey },
    acts := [] }

/-- `replayRecentOutput(session, ws)`: nothing if the buffer is empty;
otherwise a start marker, every buffered entry in order, an end marker. -/
def replayRecentOutput (st : SystemState) (session : SessionData) (ws : Nat) :
    List Effect :=
  if session.outputBuffer.length = 0 then []
  else
    sendToWebSocket st ws
      ("\r\n\x1b[2m--- Restoring previous output (" ++
        toString session.outputBuffer.length ++ " entries) ---\x1b[0m\r\n")
    ++ (session.outputBuffer.map (fun item => sendToWebSocket st ws item.data)).flatten
    ++ sendToWebSocket st ws "\r\n\x1b[2m--- End previous output ---\x1b[0m\r\n"

/-- `attachWebSocket(projectPath, ws)`: `false` if no session; otherwise
close a previously bound transport (`session.isConnected && session.currentWs`),
bind `ws`, update `lastActiveAt`, replay the buffer to `ws`, return `true`.
Closing the old transport takes it out of the OPEN set. -/
def attachWebSocket (st : SystemState) (projectPath : String) (ws : Nat)
    (now : Int) : Step Bool :=
  let sessionKey := generateSessionKey projectPath
  match findSession st.sessions sessionKey with
  | none => { res := false, st := st, acts := [] }
  | some session =>
      let closeActs :=
        if session.isConnected then
          match session.currentWs with
          | some oldWs => [Effect.closeWs oldWs]
          | none => []
        else []
      let st1 :=
        if session.isConnected then
          match session.currentWs with
          | some oldWs => { st with openWs := st.openWs.filter (fun w => w ≠ oldWs) }
          | none => st
        else st
      let session' := { session with
        isConnected := true, currentWs := some ws, lastActiveAt := now }
      let st2 := { st1 with sessions := setSession st1.sessions sessionKey session' }
      { res := true, st := st2,
        acts := closeActs ++ replayRecentOutput st2 session' ws }

/-- `detachWebSocket(projectPath)`: clear the connection flag and transport
reference, bump `lastActiveAt`; the PTY is untouched.  `false` if absent. -/
def detachWebSocket (st : SystemState) (projectPath : String) (now : Int) :
    Step Bool :=
  let sessionKey := generateSessionKey projectPath
  match findSession st.sessions sessionKey with
  | some session =>
      let session' := { session with
        isConnected := false, currentWs := none, lastActiveAt := now }
      { res := true,
        st := { st with sessions := setSession st.sessions sessionKey session' },
        acts := [] }
  | none => { res := false, st := st, acts := [] }

/-- `killSession(projectPath, force)`: missing key is a no-op returning
`true`.  `force` sends SIGKILL.  Otherwise write the textual `exit\r` line
and arm the 5000 ms escalation timer (whose callback is `fireKillTimer`
below, closing over `sessionKey` and this session's process).  Both paths
fall through to `this.sessions.delete(sessionKey)` immediately. -/
def killSession (st : SystemState) (projectPath : String) (force : Bool) :
    Step Bool :=
  let sessionKey := generateSessionKey projectPath
  match findSession st.sessions sessionKey with
  | none => { res := true, st := st, acts := [] }
  | some session =>
      if force then
        { res := true,
          st := { st with sessions := eraseSession st.sessions sessionKey },
          acts := [Effect.killPty session.ptyProcess (some "SIGKILL")] }
      else
        { res := true,
          st := { st with
            sessions := eraseSession st.sessions sessionKey,
            pendingKillTimers :=
              st.pendingKillTimers ++ [(sessionKey, session.ptyProcess)] },
          acts := [Effect.writePty session.ptyProcess "exit\r",
                   Effect.armKillTimer sessionKey session.ptyProcess 5000] }

/-- The graceful-kill timer callback firing 5 s later:
`if (this.sessions.has(sessionKey)) session.ptyProcess.kill('SIGKILL')`.
`sessionKey` and `pid` are the closed-over values from `killSession`. -/
def fireKillTimer (st : SystemState) (sessionKey : String) (pid : Nat) : Step Unit :=
  { res := (),
    st := { st with
      pendingKillTimers := st.pendingKillTimers.filter (fun t => t ≠ (sessionKey, pid)) },
    acts :=
      if (findSession st.sessions sessionKey).isSome then
        [Effect.killPty pid (some "SIGKILL")]
      else [] }

/-- The value returned by `getSessionStatus`: either the two-field
`{ exists: false, sessionKey }` object or the full snapshot. -/
inductive SessionStatus where
  | absent (sessionKey : String)
  | present (sessionKey : String) (isConnected : Bool) (createdAt lastActiveAt : Int)
      (projectPath : String) (sessionId reconnectedSessionId : Option String)
      (processId : Nat) (bufferSize : Nat) (cols rows : Nat)
deriving DecidableEq, Repr

/-- The `exists` field of a status object. -/
def SessionStatus.existsField : SessionStatus → Bool
  | .absent _ => false
  | .present .. => true

/-- The `isConnected` field of a full status object (`false` when absent). -/
def SessionStatus.connectedField : SessionStatus → Bool
  | .absent _ => false
  | .present _ c _ _ _ _ _ _ _ _ _ => c

/-- `getSessionStatus(projectPath)`: a lookup and a read-only snapshot; the
method body contains no assignment to the registry or to any session field. -/
def getSessionStatus (st : SystemState) (projectPath : String) : Step SessionStatus :=
  let sessionKey := generateSessionKey projectPath
  match findSession st.sessions sessionKey with
  | none => { res := SessionStatus.absent sessionKey, st := st, acts := [] }
  | some s =>
      { res := SessionStatus.present sessionKey s.isConnected s.createdAt
          s.lastActiveAt s.projectPath s.sessionId s.reconnectedSessionId
          s.ptyProcess s.outputBuffer.length s.cols s.rows,
        st := st, acts := [] }

/-- `cleanupInactiveSessions()`: collect every session with
`lastActiveAt < now - 2h && !isConnected`, then kill (default signal) and
delete each. -/
def cleanupInactiveSessions (st : SystemState) (now : Int) : Step Unit :=
  let twoHoursAgo := now - 2 * 60 * 60 * 1000
  let stale := fun (kv : String × SessionData) =>
    decide (kv.2.lastActiveAt < twoHoursAgo) && !kv.2.isConnected
  { res := (),
    st := { st with sessions := st.sessions.filter (fun kv => !stale kv) },
    acts := (st.sessions.filter stale).map
      (fun kv => Effect.killPty kv.2.ptyProcess none) }

/-- One event handled by the single-threaded event loop.  Running a list of
events in order models JavaScript's run-to-completion scheduling: the
effects of an earlier event are all emitted before any effect of a later
one. -/
inductive Event where
  | evGetOrCreate (projectPath : String) (sessionId : Option String) (cols rows : Nat) (now : Int)
  | evAttach (projectPath : String) (ws : Nat) (now : Int)
  | evDetach (projectPath : String) (now : Int)
  | evKill (projectPath : String) (force : Bool)
  | evFireKillTimer (sessionKey : String) (pid : Nat)
  | evPtyData (sessionKey : String) (pid : Nat) (data : String) (now : Int)
  | evPtyExit (sessionKey : String) (exitCode : Int)
  | evStatus (projectPath : String)
  | evCleanup (now : Int)
deriving DecidableEq, Repr

/-- Dispatch one event to the corresponding manager transition. -/
def stepEvent (st : SystemState) : Event → SystemState × List Effect
  | .evGetOrCreate p sid c r now =>
      ((getOrCreateSession st p sid c r now).st, (getOrCreateSession st p sid c r now).acts)
  | .evAttach p ws now => ((attachWebSocket st p ws now).st, (attachWebSocket st p ws now).acts)
  | .evDetach p now => ((detachWebSocket st p now).st, (detachWebSocket st p now).acts)
  | .evKill p force => ((killSession st p force).st, (killSession st p force).acts)
  | .evFireKillTimer key pid => ((fireKillTimer st key pid).st, (fireKillTimer st key pid).acts)
  | .evPtyData key pid d now => ((ptyOnData st key pid d now).st, (ptyOnData st key pid d now).acts)
  | .evPtyExit key code => ((ptyOnExit st key code).st, (ptyOnExit st key code).acts)
  | .evStatus p => ((getSessionStatus st p).st, (getSessionStatus st p).acts)
  | .evCleanup now => ((cleanupInactiveSessions st now).st, (cleanupInactiveSessions st now).acts)

/-- Run a list of events in order, concatenating emitted effects. -/
def run (st : SystemState) : List Event → SystemState × List Effect
  | [] => (st, [])
  | e :: es =>
      let s1 := stepEvent st e
      let s2 := run s1.1 es
      (s2.1, s1.2 ++ s2.2)

/-- Number of `spawnPty` effects in a list. -/
def countSpawns (l : List Effect) : Nat :=
  (l.filter (fun a => match a with | Effect.spawnPty _ _ => true | _ => false)).length

/-! ### Registry lemmas -/

theorem findSession_setSession_self (m : List (String × SessionData)) (key : String)
    (v : SessionData) : findSession (setSession m key v) key = some v := by
  induction m with
  | nil => simp [setSession, findSession]
  | cons kv rest ih =>
      obtain ⟨k0, v0⟩ := kv
      by_cases hk : k0 = key
      · simp [setSession, hk, findSession]
      · simp [setSession, hk, findSession, ih]

theorem findSession_setSession_ne (m : List (String × SessionData)) (key key' : String)
    (v : SessionData) (h : key' ≠ key) :
    findSession (setSession m key v) key' = findSession m key' := by
  induction m with
  | nil => simp [setSession, findSession, Ne.symm h]
  | cons kv rest ih =>
      obtain ⟨k0, v0⟩ := kv
      by_cases hk : k0 = key
      · subst hk
        simp [setSession, findSession, Ne.symm h]
      · simp [setSession, hk, findSession, ih]

theorem findSession_eraseSession_self (m : List (String × SessionData)) (key : String) :
    findSession (eraseSession m key) key = none := by
  induction m with
  | nil => rfl
  | cons kv rest ih =>
      obtain ⟨k0, v0⟩ := kv
      by_cases hk : k0 = key
      · simpa [eraseSession, hk] using ih
      · simpa [eraseSession, findSession, hk] using ih

theorem findSession_eq_none_of_not_mem (m : List (String × SessionData)) (key : String)
    (h : key ∉ m.map Prod.fst) : findSession m key = none := by
  induction m with
  | nil => rfl
  | cons kv rest ih =>
      obtain ⟨k0, v0⟩ := kv
      simp only [List.map_cons, List.mem_cons] at h
      push_neg at h
      simp [findSession, Ne.symm h.1, ih h.2]

theorem findSession_filter_none (m : List (String × SessionData)) (key : String)
    (p : String × SessionData → Bool) (h : findSession m key = none) :
    findSession (m.filter p) key = none := by
  induction m with
  | nil => rfl
  | cons kv rest ih =>
      obtain ⟨k0, v0⟩ := kv
      by_cases hk : k0 = key
      · simp [findSession, hk] at h
      · simp only [findSession, hk, if_false] at h
        by_cases hp : p (k0, v0) <;> simp [List.filter, hp, findSession, hk, ih h]

theorem findSession_filter_nodup (m : List (String × SessionData)) (key : String)
    (v : SessionData) (p : String × SessionData → Bool)
    (hnd : (m.map Prod.fst).Nodup) (h : findSession m key = some v) :
    findSession (m.filter p) key = if p (key, v) then some v else none := by
  induction m with
  | nil => simp [findSession] at h
  | cons kv rest ih =>
      obtain ⟨k0, v0⟩ := kv
      simp only [List.map_cons, List.nodup_cons] at hnd
      by_cases hk : k0 = key
      · subst hk
        simp [findSession] at h
        subst h
        have hrest : findSession rest k0 = none :=
          findSession_eq_none_of_not_mem rest k0 hnd.1
        by_cases hp : p (k0, v0)
        · simp [List.filter, hp, findSession]
        · simp [List.filter, hp, findSession_filter_none rest k0 p hrest]
      · simp only [findSession, hk, if_false] at h
        by_cases hp : p (k0, v0) <;>
          simp [List.filter, hp, findSession, hk, ih hnd.2 h]

theorem mem_of_findSession_some (m : List (String × SessionData)) (key : String)
    (v : SessionData) (h : findSession m key = some v) : (key, v) ∈ m := by
  induction m with
  | nil => simp [findSession] at h
  | cons kv rest ih =>
      obtain ⟨k0, v0⟩ := kv
      by_cases hk : k0 = key
      · subst hk
        simp [findSession] at h
        simp [h]
      · simp only [findSession, hk, if_false] at h
        simp [ih h]

/-! ### Output and replay lemmas -/

theorem flatten_map_singleton {α β : Type} (l : List α) (f : α → β) :
    (l.map (fun x => [f x])).flatten = l.map f := by
  induction l with
  | nil => rfl
  | cons x xs ih => simp [ih]

theorem mem_sendToWebSocket (st : SystemState) (ws : Nat) (d : String) (a : Effect)
    (h : a ∈ sendToWebSocket st ws d) : a = Effect.sendWs ws d := by
  unfold sendToWebSocket at h
  split at h <;> simp_all

theorem mem_replayRecentOutput (st : SystemState) (session : SessionData) (ws : Nat)
    (a : Effect) (h : a ∈ replayRecentOutput st session ws) :
    ∃ d, a = Effect.sendWs ws d := by
  unfold replayRecentOutput at h
  split at h
  · simp at h
  · simp only [List.mem_append, List.mem_flatten, List.mem_map] at h
    rcases h with (h | ⟨l, ⟨item, _, rfl⟩, hmem⟩) | h
    · exact ⟨_, mem_sendToWebSocket _ _ _ _ h⟩
    · exact ⟨_, mem_sendToWebSocket _ _ _ _ hmem⟩
    · exact ⟨_, mem_sendToWebSocket _ _ _ _ h⟩

theorem replayRecentOutput_eq (st : SystemState) (session : SessionData) (ws : Nat)
    (hne : session.outputBuffer ≠ []) (hopen : ws ∈ st.openWs) :
    replayRecentOutput st session ws =
      Effect.sendWs ws ("\r\n\x1b[2m--- Restoring previous output (" ++
          toString session.outputBuffer.length ++ " entries) ---\x1b[0m\r\n")
      :: (session.outputBuffer.map (fun item => Effect.sendWs ws item.data)
          ++ [Effect.sendWs ws "\r\n\x1b[2m--- End previous output ---\x1b[0m\r\n"]) := by
  unfold replayRecentOutput sendToWebSocket
  simp [List.length_eq_zero, hne, hopen, flatten_map_singleton]

/-! ### Buffer length lemmas -/

/-- Length evolution of one `appendToBuffer` step. -/
def lenStep (n : Nat) : Nat := if n + 1 > 1000 then 800 else n + 1

theorem length_appendToBuffer (b : List OutputEntry) (e : OutputEntry) :
    (appendToBuffer b e).length = lenStep b.length := by
  unfold appendToBuffer lenStep
  by_cases h : b.length + 1 > 1000
  · simp only [List.length_append, List.length_cons, List.length_nil, h,
      if_pos, List.length_drop]
    omega
  · simp [h]

theorem lenStep_le (n : Nat) : lenStep n ≤ 1000 := by
  unfold lenStep
  split <;> omega

/-- The buffer obtained after feeding the first `n` of a stream of output
events through the `onData` buffering policy, starting empty. -/
def bufAfter (entries : Nat → OutputEntry) : Nat → List OutputEntry
  | 0 => []
  | n + 1 => appendToBuffer (bufAfter entries n) (entries n)

/-- The corresponding length sequence. -/
def lenAfter : Nat → Nat
  | 0 => 0
  | n + 1 => lenStep (lenAfter n)

theorem length_bufAfter (entries : Nat → OutputEntry) (n : Nat) :
    (bufAfter entries n).length = lenAfter n := by
  induction n with
  | zero => rfl
  | succ n ih => simp [bufAfter, lenAfter, length_appendToBuffer, ih]

theorem lenAfter_le (n : Nat) : lenAfter n ≤ 1000 := by
  cases n with
  | zero => simp [lenAfter]
  | succ n => exact lenStep_le _

theorem lenAfter_of_le (n : Nat) (h : n ≤ 1000) : lenAfter n = n := by
  induction n with
  | zero => rfl
  | succ n ih =>
      have h1 : n ≤ 1000 := Nat.le_of_succ_le h
      simp only [lenAfter, ih h1, lenStep]
      split <;> omega

theorem lenAfter_1001 : lenAfter 1001 = 800 := by
  show lenStep (lenAfter 1000) = 800
  rw [lenAfter_of_le 1000 (by omega)]
  rfl

/-! ### Concrete fixtures for witnesses and counterexamples -/

/-- A session currently bound to transport 7, with two buffered entries
(project `/p`, pid 42). -/
def demoBound : SessionData := {
  ptyProcess := 42,
  outputBuffer := [⟨"one", 1⟩, ⟨"two", 2⟩],
  projectPath := "/p",
  sessionId := none,
  reconnectedSessionId := none,
  createdAt := 0,
  lastActiveAt := 0,
  isConnected := true,
  currentWs := some 7,
  cols := 80,
  rows := 24 }

/-- A detached session with two buffered entries (project `/q`, pid 43). -/
def demoUnbound : SessionData := { demoBound with
  projectPath := "/q", isConnected := false, currentWs := none, ptyProcess := 43 }

/-- A detached session with an empty buffer (project `/r`, pid 44). -/
def demoEmptyBuf : SessionData := { demoUnbound with
  outputBuffer := [], projectPath := "/r", ptyProcess := 44 }

/-- Registry holding the three demo sessions; transports 7, 8, 9 are OPEN. -/
def demoState : SystemState := {
  sessions := [("project-_p", demoBound), ("project-_q", demoUnbound),
               ("project-_r", demoEmptyBuf)],
  nextPid := 100,
  openWs := [7, 8, 9],
  pendingKillTimers := [] }

/-- Empty registry; transports 7, 8, 9 are OPEN. -/
def emptyState : SystemState :=
  { sessions := [], nextPid := 100, openWs := [7, 8, 9], pendingKillTimers := [] }

/-! ### Claim theorems -/

/-- C9: the session key is `project-` plus the project path with every `/`
and `\` replaced by `_`; the mapping is not injective: the distinct paths
`/a/b` and `/a_b` both yield `project-_a_b`, so after creating a session
for `/a/b`, a create-or-reuse call for `/a_b` resolves to the same
Registry entry and the same PTY process instead of spawning a second
subprocess. -/
theorem C9_session_key_not_injective :
    generateSessionKey "/a/b" = "project-_a_b" ∧
    generateSessionKey "/a_b" = "project-_a_b" ∧
    generateSessionKey "\\a\\b" = "project-_a_b" ∧
    "/a/b" ≠ "/a_b" ∧
    (let step1 := getOrCreateSession emptyState "/a/b" none 80 24 0
     let step2 := getOrCreateSession step1.st "/a_b" none 80 24 1
     step2.res.2 = false ∧
     step2.res.1.ptyProcess = step1.res.1.ptyProcess ∧
     countSpawns (step1.acts ++ step2.acts) = 1) := by
  decide

/-- C4: after every append the buffer length is at most 1000; an append
that pushes the length past 1000 trims in one batch operation to exactly
the most recent 800 entries (a suffix of length 800 of the pushed list);
and over any stream of output events the length is ≤ 1000 after each of
the first 1500 appends and is exactly 800 immediately after the first
trim, which happens at append number 1001. -/
theorem C4_buffer_bound (b : List OutputEntry) (e : OutputEntry)
    (entries : Nat → OutputEntry) :
    (appendToBuffer b e).length ≤ 1000 ∧
    (b.length + 1 > 1000 →
      appendToBuffer b e = (b ++ [e]).drop (b.length + 1 - 800) ∧
      (appendToBuffer b e).length = 800 ∧
      appendToBuffer b e <:+ (b ++ [e])) ∧
    (∀ i, i ≤ 1500 → (bufAfter entries i).length ≤ 1000) ∧
    (bufAfter entries 1001).length = 800 := by
  refine ⟨?_, ?_, ?_, ?_⟩
  · rw [length_appendToBuffer]
    exact lenStep_le _
  · intro h
    have h' : (b ++ [e]).length > 1000 := by simpa using h
    have heq : appendToBuffer b e = (b ++ [e]).drop ((b ++ [e]).length - 800) := by
      show (if (b ++ [e]).length > 1000 then (b ++ [e]).drop ((b ++ [e]).length - 800)
            else (b ++ [e])) = (b ++ [e]).drop ((b ++ [e]).length - 800)
      rw [if_pos h']
    have harith : (b ++ [e]).length - 800 = b.length + 1 - 800 := by
      simp
    refine ⟨?_, ?_, ?_⟩
    · rw [heq, harith]
    · rw [heq, List.length_drop]
      simp only [List.length_append, List.length_cons, List.length_nil]
      omega
    · rw [heq]
      exact List.drop_suffix _ _
  · intro i _
    rw [length_bufAfter]
    exact lenAfter_le i
  · rw [length_bufAfter]
    exact lenAfter_1001

/-- C4 witness: a concrete append at the 1000-entry boundary trims to
exactly 800, and a concrete 1500-event stream has length 800 right after
append number 1001. -/
theorem C4_buffer_bound_witness :
    (appendToBuffer (List.replicate 1000 ⟨"x", 0⟩) ⟨"y", 9⟩).length = 800 ∧
    (bufAfter (fun i => ⟨"z", (i : Int)⟩) 1001).length = 800 :=
  ⟨((C4_buffer_bound (List.replicate 1000 ⟨"x", 0⟩) ⟨"y", 9⟩
      (fun i => ⟨"z", (i : Int)⟩)).2.1 (by simp only [List.length_replicate]; omega)).2.1,
   (C4_buffer_bound [] ⟨"", 0⟩ (fun i => ⟨"z", (i : Int)⟩)).2.2.2⟩

/-- C1: if a Session is already registered under `P`'s key, a
`getOrCreateSession` call returns it with `isNew = false` and the same
underlying PTY process and spawns no subprocess; and from any state with
no Session under `P`'s key, two successive create-or-reuse calls spawn
exactly one subprocess, the second call returning `isNew = false` with the
same process identity as the first. -/
theorem C1_creation_idempotent
    (st st' : SystemState) (P : String) (s : SessionData)
    (sid sid1 sid2 : Option String) (c r c1 r1 c2 r2 : Nat) (t t1 t2 : Int)
    (hex : findSession st.sessions (generateSessionKey P) = some s)
    (hnew : findSession st'.sessions (generateSessionKey P) = none) :
    ((getOrCreateSession st P sid c r t).res.2 = false ∧
     (getOrCreateSession st P sid c r t).res.1.ptyProcess = s.ptyProcess ∧
     countSpawns (getOrCreateSession st P sid c r t).acts = 0) ∧
    (let step1 := getOrCreateSession st' P sid1 c1 r1 t1
     let step2 := getOrCreateSession step1.st P sid2 c2 r2 t2
     step2.res.2 = false ∧
     step2.res.1.ptyProcess = step1.res.1.ptyProcess ∧
     countSpawns (step1.acts ++ step2.acts) = 1) := by
  constructor
  · simp [getOrCreateSession, hex, countSpawns]
  · simp [getOrCreateSession, hnew, findSession_setSession_self, countSpawns]

/-- C1 witness: concrete reuse on `demoState` (pid 42 kept, nothing
spawned) and concrete double creation from `emptyState` (one spawn). -/
theorem C1_creation_idempotent_witness :
    ((getOrCreateSession demoState "/p" none 80 24 5).res.2 = false ∧
     (getOrCreateSession demoState "/p" none 80 24 5).res.1.ptyProcess =
       demoBound.ptyProcess ∧
     countSpawns (getOrCreateSession demoState "/p" none 80 24 5).acts = 0) ∧
    (let step1 := getOrCreateSession emptyState "/p" none 80 24 0
     let step2 := getOrCreateSession step1.st "/p" none 80 24 1
     step2.res.2 = false ∧
     step2.res.1.ptyProcess = step1.res.1.ptyProcess ∧
     countSpawns (step1.acts ++ step2.acts) = 1) :=
  C1_creation_idempotent demoState emptyState "/p" demoBound none none none
    80 24 80 24 80 24 5 0 1 (by decide) (by decide)

/-- C8 (amended): a subprocess exit event removes the Session's Registry
entry unconditionally — regardless of idle time or of a bound transport —
and emits nothing: in particular no terminal output message is sent to a
bound transport (exit reporting to the client exists only on the ephemeral
plain-shell path, which bypasses this Registry). -/
theorem C8_exit_destroys_session (st : SystemState) (key : String) (code : Int) :
    (ptyOnExit st key code).st.sessions = eraseSession st.sessions key ∧
    findSession (ptyOnExit st key code).st.sessions key = none ∧
    (ptyOnExit st key code).acts = [] := by
  refine ⟨rfl, ?_, rfl⟩
  exact findSession_eraseSession_self st.sessions key

/-- C8 counterexample: pid 42's subprocess exits with non-zero code 1
while its Session is bound to transport 7, which is OPEN; the Registry
entry is removed but no message of any kind is emitted — contradicting the
claim that the failure is reported to the bound transport as a terminal
output message. -/
theorem C8_counterexample :
    demoBound.isConnected = true ∧
    demoBound.currentWs = some 7 ∧
    (7 : Nat) ∈ demoState.openWs ∧
    (ptyOnExit demoState "project-_p" 1).acts = [] ∧
    findSession (ptyOnExit demoState "project-_p" 1).st.sessions
      "project-_p" = none := by
  decide

/-- C10: `getSessionStatus` is a pure observation: the state after the
call is exactly the state before (no Registry or Session field changes —
in particular `lastActiveAt` is untouched, so polling status does not
postpone the idle reaper's decision, as the final conjunct states), it
emits no effects, and on an unregistered key it reports `exists: false`. -/
theorem C10_status_pure (st : SystemState) (P : String) (now : Int) :
    (getSessionStatus st P).st = st ∧
    (getSessionStatus st P).acts = [] ∧
    (findSession st.sessions (generateSessionKey P) = none →
      (getSessionStatus st P).res = SessionStatus.absent (generateSessionKey P)) ∧
    cleanupInactiveSessions (getSessionStatus st P).st now =
      cleanupInactiveSessions st now := by
  rcases h : findSession st.sessions (generateSessionKey P) with _ | s
  · simp [getSessionStatus, h]
  · simp [getSessionStatus, h]

/-- C10 witness: status on `emptyState` for an unregistered project leaves
the state unchanged and reports `exists: false`. -/
theorem C10_status_pure_witness :
    (getSessionStatus emptyState "/nope").st = emptyState ∧
    (getSessionStatus emptyState "/nope").res =
      SessionStatus.absent (generateSessionKey "/nope") :=
  ⟨(C10_status_pure emptyState "/nope" 0).1,
   (C10_status_pure emptyState "/nope" 0).2.2.1 (by decide)⟩

/-- C2: attaching transport `B` to a Session already bound to transport
`A` closes `A` (only the transport — no PTY kill effect is emitted) and
leaves `B` as the sole bound transport; the bound transport is a single
`Option`-valued field, so at most one transport is bound after every
operation by construction, and after the attach it is exactly `some B`;
a status query immediately
afterwards reports the Session as existing and connected. -/
theorem C2_exclusive_transport
    (st : SystemState) (P : String) (s : SessionData) (A B : Nat) (now : Int)
    (hfound : findSession st.sessions (generateSessionKey P) = some s)
    (hconn : s.isConnected = true) (hws : s.currentWs = some A) :
    (attachWebSocket st P B now).res = true ∧
    (attachWebSocket st P B now).acts.head? = some (Effect.closeWs A) ∧
    (∀ pid sig, Effect.killPty pid sig ∉ (attachWebSocket st P B now).acts) ∧
    findSession (attachWebSocket st P B now).st.sessions (generateSessionKey P) =
      some { s with isConnected := true, currentWs := some B, lastActiveAt := now } ∧
    (getSessionStatus (attachWebSocket st P B now).st P).res.existsField = true ∧
    (getSessionStatus (attachWebSocket st P B now).st P).res.connectedField = true := by
  have hsess : findSession (attachWebSocket st P B now).st.sessions
      (generateSessionKey P) =
      some { s with isConnected := true, currentWs := some B, lastActiveAt := now } := by
    simp [attachWebSocket, hfound, hconn, hws, findSession_setSession_self]
  refine ⟨?_, ?_, ?_, hsess, ?_, ?_⟩
  · simp [attachWebSocket, hfound, hconn, hws]
  · simp [attachWebSocket, hfound, hconn, hws]
  · intro pid sig hmem
    simp [attachWebSocket, hfound, hconn, hws] at hmem
    obtain ⟨d, hd⟩ := mem_replayRecentOutput _ _ _ _ hmem
    exact Effect.noConfusion hd
  · simp [getSessionStatus, hsess, SessionStatus.existsField]
  · simp [getSessionStatus, hsess, SessionStatus.connectedField]

/-- C2 witness: on `demoState`, attaching transport 8 to `/p` (bound to 7)
closes 7 first, emits no PTY kill, binds 8, and status reports connected. -/
theorem C2_exclusive_transport_witness :
    (attachWebSocket demoState "/p" 8 5).res = true ∧
    (attachWebSocket demoState "/p" 8 5).acts.head? = some (Effect.closeWs 7) ∧
    (getSessionStatus (attachWebSocket demoState "/p" 8 5).st "/p").res.connectedField
      = true :=
  ⟨(C2_exclusive_transport demoState "/p" demoBound 7 8 5
      (by decide) (by decide) (by decide)).1,
   (C2_exclusive_transport demoState "/p" demoBound 7 8 5
      (by decide) (by decide) (by decide)).2.1,
   (C2_exclusive_transport demoState "/p" demoBound 7 8 5
      (by decide) (by decide) (by decide)).2.2.2.2.2⟩

/-- C7: detaching the bound transport clears only the connection flag and
the transport reference (plus the activity timestamp): the Session stays
registered under the same key with the same PTY process and the same
buffer contents, no effects are emitted (the PTY is neither killed nor
written to and nothing is closed), a status query right after reports
existing and not connected, and a subsequent PTY output chunk is still
appended to the buffer while nothing is forwarded to any transport. -/
theorem C7_detach_preserves_process
    (st : SystemState) (P : String) (s : SessionData) (A : Nat)
    (now now2 : Int) (d : String)
    (hfound : findSession st.sessions (generateSessionKey P) = some s)
    (_hconn : s.isConnected = true) (_hws : s.currentWs = some A) :
    (detachWebSocket st P now).res = true ∧
    (detachWebSocket st P now).acts = [] ∧
    findSession (detachWebSocket st P now).st.sessions (generateSessionKey P) =
      some { s with isConnected := false, currentWs := none, lastActiveAt := now } ∧
    (getSessionStatus (detachWebSocket st P now).st P).res.existsField = true ∧
    (getSessionStatus (detachWebSocket st P now).st P).res.connectedField = false ∧
    (findSession (ptyOnData (detachWebSocket st P now).st (generateSessionKey P)
        s.ptyProcess d now2).st.sessions (generateSessionKey P) =
      some { s with
        isConnected := false
        currentWs := none
        lastActiveAt := now
        outputBuffer := appendToBuffer s.outputBuffer ⟨d, now2⟩ } ∧
     (ptyOnData (detachWebSocket st P now).st (generateSessionKey P)
        s.ptyProcess d now2).acts = []) := by
  have hdet : findSession (detachWebSocket st P now).st.sessions
      (generateSessionKey P) =
      some { s with isConnected := false, currentWs := none, lastActiveAt := now } := by
    simp [detachWebSocket, hfound, findSession_setSession_self]
  refine ⟨?_, ?_, hdet, ?_, ?_, ?_, ?_⟩
  · simp [detachWebSocket, hfound]
  · simp [detachWebSocket, hfound]
  · simp [getSessionStatus, hdet, SessionStatus.existsField]
  · simp [getSessionStatus, hdet, SessionStatus.connectedField]
  · simp [ptyOnData, hdet, findSession_setSession_self]
  · simp [ptyOnData, hdet]

/-- C7 witness: detaching transport 7 from `/p` on `demoState` keeps the
entry (pid 42, buffer intact), status says existing and not connected, and
a later output chunk is buffered with nothing forwarded. -/
theorem C7_detach_preserves_process_witness :
    (detachWebSocket demoState "/p" 6).res = true ∧
    (detachWebSocket demoState "/p" 6).acts = [] ∧
    (getSessionStatus (detachWebSocket demoState "/p" 6).st "/p").res.existsField
      = true ∧
    (getSessionStatus (detachWebSocket demoState "/p" 6).st "/p").res.connectedField
      = false ∧
    (ptyOnData (detachWebSocket demoState "/p" 6).st "project-_p" 42 "later" 7).acts
      = [] :=
  ⟨(C7_detach_preserves_process demoState "/p" demoBound 7 6 7 "later"
      (by decide) (by decide) (by decide)).1,
   (C7_detach_preserves_process demoState "/p" demoBound 7 6 7 "later"
      (by decide) (by decide) (by decide)).2.1,
   (C7_detach_preserves_process demoState "/p" demoBound 7 6 7 "later"
      (by decide) (by decide) (by decide)).2.2.2.1,
   (C7_detach_preserves_process demoState "/p" demoBound 7 6 7 "later"
      (by decide) (by decide) (by decide)).2.2.2.2.1,
   (C7_detach_preserves_process demoState "/p" demoBound 7 6 7 "later"
      (by decide) (by decide) (by decide)).2.2.2.2.2.2⟩

/-- C3 (amended): for a Session with `N ≥ 1` buffered entries and no bound
transport, attaching a fresh OPEN transport delivers exactly those `N`
entries to it, in original append order, bracketed by the
`--- Restoring previous output (N entries) ---` marker before and the
`--- End previous output ---` marker after; the event loop being
single-threaded, all of this precedes every effect of any later event — in
particular any new live PTY output.  When the buffer is empty nothing at
all is replayed, markers included (see the counterexample). -/
theorem C3_replay_completeness
    (st : SystemState) (P : String) (s : SessionData) (ws : Nat) (now : Int)
    (es : List Event)
    (hfound : findSession st.sessions (generateSessionKey P) = some s)
    (hunbound : s.isConnected = false)
    (hne : s.outputBuffer ≠ [])
    (hopen : ws ∈ st.openWs) :
    (run st (Event.evAttach P ws now :: es)).2 =
      Effect.sendWs ws ("\r\n\x1b[2m--- Restoring previous output (" ++
          toString s.outputBuffer.length ++ " entries) ---\x1b[0m\r\n")
      :: (s.outputBuffer.map (fun item => Effect.sendWs ws item.data)
          ++ [Effect.sendWs ws "\r\n\x1b[2m--- End previous output ---\x1b[0m\r\n"]
          ++ (run (attachWebSocket st P ws now).st es).2) := by
  simp only [run, stepEvent]
  simp [attachWebSocket, hfound, hunbound, replayRecentOutput, sendToWebSocket,
    hopen, List.length_eq_zero, hne, flatten_map_singleton]

/-- C3 counterexample: attaching transport 9 (OPEN) to the registered
session for `/r`, which has no bound transport and an empty buffer
(`N = 0`), succeeds but delivers nothing at all: no
`Restoring previous output (0 entries)` marker and no
`End previous output` marker reach the transport, so the claimed marker
bracketing fails for `N = 0`. -/
theorem C3_counterexample :
    (attachWebSocket demoState "/r" 9 5).res = true ∧
    demoEmptyBuf.outputBuffer.length = 0 ∧
    (9 : Nat) ∈ demoState.openWs ∧
    (attachWebSocket demoState "/r" 9 5).acts = [] := by
  decide

/-- C3 witness: attaching transport 8 to `/q` (two buffered entries, no
bound transport) and then handling one live PTY output event yields the
two markers around the two entries, all before the live event's output. -/
theorem C3_replay_completeness_witness :
    (run demoState (Event.evAttach "/q" 8 5 ::
        [Event.evPtyData "project-_q" 43 "live" 9])).2 =
      Effect.sendWs 8 ("\r\n\x1b[2m--- Restoring previous output (" ++
          toString demoUnbound.outputBuffer.length ++ " entries) ---\x1b[0m\r\n")
      :: (demoUnbound.outputBuffer.map (fun item => Effect.sendWs 8 item.data)
          ++ [Effect.sendWs 8 "\r\n\x1b[2m--- End previous output ---\x1b[0m\r\n"]
          ++ (run (attachWebSocket demoState "/q" 8 5).st
                [Event.evPtyData "project-_q" 43 "live" 9]).2) :=
  C3_replay_completeness demoState "/q" demoUnbound 8 5
    [Event.evPtyData "project-_q" 43 "live" 9]
    (by decide) (by decide) (by decide) (by decide)

/-- C5: one reaper sweep force-kills and evicts exactly the Sessions that
have no bound transport and whose `lastActiveAt` is strictly older than
the 2-hour threshold, and every Session with a bound transport survives
the sweep unchanged regardless of how old its `lastActiveAt` is (the
`Nodup` hypothesis is key uniqueness of the JS `Map`). -/
theorem C5_idle_reaper
    (st : SystemState) (now : Int) (key : String) (s : SessionData)
    (hnd : (st.sessions.map Prod.fst).Nodup)
    (hfound : findSession st.sessions key = some s) :
    ((s.lastActiveAt < now - 2 * 60 * 60 * 1000 ∧ s.isConnected = false) →
      findSession (cleanupInactiveSessions st now).st.sessions key = none ∧
      Effect.killPty s.ptyProcess none ∈ (cleanupInactiveSessions st now).acts) ∧
    (s.isConnected = true →
      findSession (cleanupInactiveSessions st now).st.sessions key = some s) := by
  have hsessions : (cleanupInactiveSessions st now).st.sessions =
      st.sessions.filter (fun kv =>
        !(decide (kv.2.lastActiveAt < now - 2 * 60 * 60 * 1000) &&
          !kv.2.isConnected)) := rfl
  have hacts : (cleanupInactiveSessions st now).acts =
      (st.sessions.filter (fun kv =>
        decide (kv.2.lastActiveAt < now - 2 * 60 * 60 * 1000) &&
        !kv.2.isConnected)).map
        (fun kv => Effect.killPty kv.2.ptyProcess none) := rfl
  constructor
  · rintro ⟨h1, h2⟩
    constructor
    · rw [hsessions, findSession_filter_nodup st.sessions key s _ hnd hfound]
      simp [h2]
      omega
    · rw [hacts]
      refine List.mem_map.mpr ⟨(key, s), ?_, rfl⟩
      refine List.mem_filter.mpr ⟨mem_of_findSession_some st.sessions key s hfound, ?_⟩
      simp [h2]
      omega
  · intro h2
    rw [hsessions, findSession_filter_nodup st.sessions key s _ hnd hfound]
    simp [h2]

/-- C5 witness: sweeping `demoState` at a time 2800 s past the threshold
evicts and kills the unbound stale session for `/q` (pid 43) while the
bound session for `/p` survives with the same record. -/
theorem C5_idle_reaper_witness :
    findSession (cleanupInactiveSessions demoState 10000000).st.sessions
      "project-_q" = none ∧
    Effect.killPty 43 none ∈ (cleanupInactiveSessions demoState 10000000).acts ∧
    findSession (cleanupInactiveSessions demoState 10000000).st.sessions
      "project-_p" = some demoBound :=
  ⟨((C5_idle_reaper demoState 10000000 "project-_q" demoUnbound
      (by decide) (by decide)).1 (by decide)).1,
   ((C5_idle_reaper demoState 10000000 "project-_q" demoUnbound
      (by decide) (by decide)).1 (by decide)).2,
   (C5_idle_reaper demoState 10000000 "project-_p" demoBound
      (by decide) (by decide)).2 (by decide)⟩

/-- C6 (amended): `killSession(P, force = false)` on a registered Session
returns success, writes the textual `exit` line (`exit\r`) to the shell,
arms the 5-second escalation timer, and removes the Registry entry
immediately after the kill decision — not after confirmed termination; the
timer's callback force-kills the captured process only when the Registry
holds the session key at fire time, so, the entry having just been
removed, firing it on the otherwise-unchanged registry kills nothing (it
escalates only if the key was re-registered in the interim); killing a key
with no registered Session returns success and changes nothing. -/
theorem C6_kill_session
    (st st2 stAbsent : SystemState) (P : String) (s : SessionData)
    (key : String) (pid : Nat)
    (hfound : findSession st.sessions (generateSessionKey P) = some s)
    (habsent : findSession stAbsent.sessions (generateSessionKey P) = none) :
    (killSession st P false).res = true ∧
    (killSession st P false).acts =
      [Effect.writePty s.ptyProcess "exit\r",
       Effect.armKillTimer (generateSessionKey P) s.ptyProcess 5000] ∧
    findSession (killSession st P false).st.sessions (generateSessionKey P) = none ∧
    (generateSessionKey P, s.ptyProcess) ∈
      (killSession st P false).st.pendingKillTimers ∧
    (fireKillTimer (killSession st P false).st (generateSessionKey P)
      s.ptyProcess).acts = [] ∧
    ((findSession st2.sessions key).isSome →
      (fireKillTimer st2 key pid).acts = [Effect.killPty pid (some "SIGKILL")]) ∧
    (findSession st2.sessions key = none → (fireKillTimer st2 key pid).acts = []) ∧
    (killSession stAbsent P false).res = true ∧
    (killSession stAbsent P false).st = stAbsent ∧
    (killSession stAbsent P false).acts = [] := by
  refine ⟨?_, ?_, ?_, ?_, ?_, ?_, ?_, ?_, ?_, ?_⟩
  · simp [killSession, hfound]
  · simp [killSession, hfound]
  · simp [killSession, hfound, findSession_eraseSession_self]
  · simp [killSession, hfound]
  · simp [killSession, fireKillTimer, hfound, findSession_eraseSession_self]
  · intro h
    simp [fireKillTimer, h]
  · intro h
    simp [fireKillTimer, h]
  · simp [killSession, habsent]
  · simp [killSession, habsent]
  · simp [killSession, habsent]

/-- C6 counterexample: killing the registered session for `/p` gracefully
writes the `exit` line and arms the timer, but the Registry entry is
removed at once; with no further registry change and no termination of
pid 42 in between, the armed timer fires and emits no kill at all —
contradicting the claim that it escalates to a forced kill of the process
whenever the process has not terminated by then. -/
theorem C6_counterexample :
    (killSession demoState "/p" false).acts =
      [Effect.writePty 42 "exit\r", Effect.armKillTimer "project-_p" 42 5000] ∧
    ("project-_p", 42) ∈ (killSession demoState "/p" false).st.pendingKillTimers ∧
    (fireKillTimer (killSession demoState "/p" false).st "project-_p" 42).acts
      = [] := by
  decide

/-- C6 witness: graceful kill of `/q` on `demoState` removes the entry at
once and its timer then fires without killing; killing the unregistered
`/q` on `emptyState` is a no-op success. -/
theorem C6_kill_session_witness :
    (killSession demoState "/q" false).res = true ∧
    findSession (killSession demoState "/q" false).st.sessions
      (generateSessionKey "/q") = none ∧
    (fireKillTimer (killSession demoState "/q" false).st (generateSessionKey "/q")
      demoUnbound.ptyProcess).acts = [] ∧
    (killSession emptyState "/q" false).st = emptyState :=
  ⟨(C6_kill_session demoState demoState emptyState "/q" demoUnbound "k" 0
      (by decide) (by decide)).1,
   (C6_kill_session demoState demoState emptyState "/q" demoUnbound "k" 0
      (by decide) (by decide)).2.2.1,
   (C6_kill_session demoState demoState emptyState "/q" demoUnbound "k" 0
      (by decide) (by decide)).2.2.2.2.1,
   (C6_kill_session demoState demoState emptyState "/q" demoUnbound "k" 0
      (by decide) (by decide)).2.2.2.2.2.2.2.2.1⟩
